import Mathlib

/-!
Verification of the ClipsMachine scheduled multi-destination publish pipeline.

The definitions below are a shallow embedding of the core of the repository:
the SQLite-backed job store and scheduler (src/clipsmachine/scheduler.py), the
multi-platform dispatcher (src/clipsmachine/multi_uploader.py), and the
destination adapters (src/clipsmachine/platforms/).

Modelling conventions:
- Timestamps are integers (seconds).  The source stores ISO-format strings and
  compares them with SQLite TEXT (lexicographic) comparison; for uniform
  ISO strings produced by datetime.isoformat this agrees with chronological
  order, so the embedding uses integer order directly, and
  timedelta(hours=h) becomes addition of 3600 * h.
- The scheduled_posts table is a list of rows in rowid order together with the
  AUTOINCREMENT counter; INSERT appends, UPDATE maps over rows by id, DELETE
  filters.
- JSON values written to the result column only ever take two shapes in the
  source (a list of UploadResult dicts from mark_posted, a single
  object with one error key from mark_failed), captured by JobResult.
- External effects (filesystem, manifest files, network adapters) are passed
  in as explicit environment records; fallible Python code that raises is
  embedded with Except, the raised exception message being the error value.
-/

namespace ClipsMachine

/-- A single-quote character as a string, used to build error messages that
quote a platform name. -/
def sq : String := String.singleton (Char.ofNat 39)

/-- Character-level worker for split_char. -/
def split_char_list (sep : Char) : List Char → List (List Char)
  | [] => [[]]
  | c :: rest =>
    let r := split_char_list sep rest
    if c == sep then [] :: r
    else match r with
      | [] => [[c]]
      | h :: t => (c :: h) :: t

/-- Python str.split with a one-character separator (semantically
String.splitOn at a one-character separator: empty input gives one empty
field, separators delimit possibly-empty fields).  Implemented by structural
recursion over the character list. -/
def split_char (sep : Char) (s : String) : List String :=
  (split_char_list sep s.data).map (fun cs => String.mk cs)

/-- str.lstrip at a single character: drop every leading occurrence. -/
def lstrip_char (c : Char) (s : String) : String :=
  String.mk (s.data.dropWhile (fun d => d == c))

/-- str.lower over the characters. -/
def str_lower (s : String) : String :=
  String.mk (s.data.map Char.toLower)

/-- str.strip: remove leading and trailing whitespace. -/
def str_strip (s : String) : String :=
  String.mk (((s.data.dropWhile Char.isWhitespace).reverse.dropWhile
    Char.isWhitespace).reverse)

/-- str.replace of one character by the empty string: remove every
occurrence. -/
def remove_char (c : Char) (s : String) : String :=
  String.mk (s.data.filter (fun d => !(d == c)))

/-- Result of a platform upload: dataclass UploadResult in platforms/base.py.
The metadata dict is modelled as an association list. -/
structure UploadResult where
  success : Bool
  platform : String
  video_id : Option String := none
  url : Option String := none
  error : Option String := none
  metadata : Option (List (String × String)) := none
deriving Repr, DecidableEq

/-- Shape of the JSON document stored in the result column of
scheduled_posts: mark_posted writes a list of UploadResult dicts
(json.dumps of a list of asdict results), mark_failed writes a single object
holding one error string. -/
inductive JobResult where
  | entries (rs : List UploadResult)
  | errorRecord (error : String)
deriving Repr, DecidableEq

/-- Row of the scheduled_posts table: dataclass ScheduledPost in scheduler.py.
platforms is the comma-joined string exactly as stored in the TEXT column. -/
structure ScheduledPost where
  id : Nat
  video_id : String
  clip_index : Int
  platforms : String
  scheduled_time : Int
  status : String
  video_url : Option String := none
  thumbnail_url : Option String := none
  title : Option String := none
  description : Option String := none
  result : Option JobResult := none
  created_at : Option Int := none
  posted_at : Option Int := none
deriving Repr, DecidableEq

/-- State of the SQLite database behind PostScheduler: the table rows in rowid
order plus the AUTOINCREMENT counter (SQLite hands out strictly increasing ids
starting from 1 and never reuses one). -/
structure SchedulerDB where
  rows : List ScheduledPost
  next_id : Nat
deriving Repr, DecidableEq

/-- Fresh database as created by _init_database. -/
def SchedulerDB.empty : SchedulerDB := { rows := [], next_id := 1 }

/-- Table well-formedness: all row ids have been handed out by the
AUTOINCREMENT counter, and ids are unique (id is the PRIMARY KEY).  This holds
for every database reachable from SchedulerDB.empty. -/
def SchedulerDB.WF (db : SchedulerDB) : Prop :=
  (∀ r ∈ db.rows, r.id < db.next_id) ∧
    db.rows.Pairwise (fun a b => a.id ≠ b.id)

/-- PostScheduler.schedule_post: INSERT one row with status pending and return
lastrowid.  now models CURRENT_TIMESTAMP for the created_at default. -/
def schedule_post (db : SchedulerDB) (now : Int) (video_id : String) (clip_index : Int)
    (platforms : List String) (scheduled_time : Int)
    (video_url thumbnail_url title description : Option String) : SchedulerDB × Nat :=
  let row : ScheduledPost :=
    { id := db.next_id
      video_id := video_id
      clip_index := clip_index
      platforms := String.intercalate "," platforms
      scheduled_time := scheduled_time
      status := "pending"
      video_url := video_url
      thumbnail_url := thumbnail_url
      title := title
      description := description
      result := none
      created_at := some now
      posted_at := none }
  ({ rows := db.rows ++ [row], next_id := db.next_id + 1 }, db.next_id)

/-- PostScheduler.mark_posted: UPDATE status, result, posted_at WHERE id = ?.
The source stores NULL instead of the serialized result when the result list
is falsy (empty). -/
def mark_posted (db : SchedulerDB) (now : Int) (post_id : Nat)
    (result : List UploadResult) : SchedulerDB :=
  { db with rows := db.rows.map (fun r =>
      if r.id = post_id then
        { r with status := "posted"
                 result := if result.isEmpty then none else some (JobResult.entries result)
                 posted_at := some now }
      else r) }

/-- PostScheduler.mark_failed: UPDATE status, result, posted_at WHERE id = ?;
the result column receives a single-key error object. -/
def mark_failed (db : SchedulerDB) (now : Int) (post_id : Nat)
    (error : String) : SchedulerDB :=
  { db with rows := db.rows.map (fun r =>
      if r.id = post_id then
        { r with status := "failed"
                 result := some (JobResult.errorRecord error)
                 posted_at := some now }
      else r) }

/-- PostScheduler.cancel_post: DELETE WHERE id = ? AND status = pending,
returning whether any row was deleted (cursor.rowcount > 0). -/
def cancel_post (db : SchedulerDB) (post_id : Nat) : SchedulerDB × Bool :=
  let hit := fun (r : ScheduledPost) => r.id == post_id && r.status == "pending"
  ({ db with rows := db.rows.filter (fun r => !hit r) }, db.rows.any hit)

/-- Comparison used for ORDER BY scheduled_time ASC. -/
def sched_le (a b : ScheduledPost) : Bool := decide (a.scheduled_time ≤ b.scheduled_time)

/-- PostScheduler.get_pending_posts: SELECT rows with status pending and
scheduled_time at or before the cutoff, ORDER BY scheduled_time ASC. -/
def get_pending_posts (db : SchedulerDB) (before : Int) : List ScheduledPost :=
  (db.rows.filter (fun r =>
    r.status == "pending" && decide (r.scheduled_time ≤ before))).mergeSort sched_le

/-- SELECT * WHERE id = ?, as performed by the UPDATE statements; rows carry
unique ids in any well-formed database. -/
def find_post (db : SchedulerDB) (post_id : Nat) : Option ScheduledPost :=
  db.rows.find? (fun r => r.id == post_id)

/-- One entry of a clips manifest file, as consumed by schedule_batch and
process_pending_posts: dict with clip_index, title, description, file_name.
The source reads clip_index with int(c.get("clip_index", 0)), so it is
modelled as always present. -/
structure Clip where
  clip_index : Int
  title : Option String := none
  description : Option String := none
  file_name : Option String := none
deriving Repr, DecidableEq

/-- Sort key for manifest.sort(key=lambda c: int(c.get("clip_index", 0))). -/
def clip_le (a b : Clip) : Bool := decide (a.clip_index ≤ b.clip_index)

/-- Loop body of PostScheduler.schedule_batch: one schedule_post call per clip,
advancing the scheduled time by timedelta(hours=interval_hours) between
clips. -/
def schedule_clips (now : Int) (video_id : String) (platforms : List String)
    (interval_hours : Int) : List Clip → SchedulerDB → Int → SchedulerDB × List Nat
  | [], db, _ => (db, [])
  | clip :: rest, db, t =>
    let titleD := match clip.title with
      | some s => s
      | none => "Clip #" ++ toString clip.clip_index
    let step := schedule_post db now video_id clip.clip_index platforms t none none
      (some titleD) (some (clip.description.getD ""))
    let next := schedule_clips now video_id platforms interval_hours rest step.1
      (t + 3600 * interval_hours)
    (next.1, step.2 :: next.2)

/-- PostScheduler.schedule_batch over an already-loaded manifest (the source
raises FileNotFoundError before this point when the manifest file is absent;
that read is outside the store model).  The manifest is first sorted by clip
index, then one job per clip is created at start_time + i * interval hours. -/
def schedule_batch (db : SchedulerDB) (now : Int) (video_id : String) (start_time : Int)
    (interval_hours : Int) (platforms : List String) (manifest : List Clip) :
    SchedulerDB × List Nat :=
  schedule_clips now video_id platforms interval_hours
    (manifest.mergeSort clip_le) db start_time

/-- One initialized destination adapter as seen by the dispatcher: its display
name, current authentication state, the outcome of an authenticate() call, and
the behaviour of its upload method (Except.error models a raised exception,
caught by upload_single). -/
structure PlatformInst where
  display_name : String
  authenticated : Bool
  auth_succeeds : Bool
  upload_behavior : String → String → String → Option (List String) →
    Except String UploadResult

/-- MultiPlatformUploader state after __init__: the requested names and the
dict of successfully initialized adapters (initialization failures are caught
and the name is simply absent from the dict). -/
structure MultiPlatformUploader where
  platform_names : List String
  platforms : List (String × PlatformInst)

/-- MultiPlatformUploader.upload_single: an uninitialized name yields a failed
result attributed to that name; otherwise authenticate first when needed, then
call the adapter upload, converting a raised exception into a failed result
labelled with the adapter display name. -/
def upload_single (u : MultiPlatformUploader) (platform_name : String)
    (video_path title description : String) (tags : Option (List String)) : UploadResult :=
  match u.platforms.find? (fun p => p.1 == platform_name) with
  | none =>
    { success := false
      platform := platform_name
      error := some ("Platform " ++ sq ++ platform_name ++ sq ++ " not initialized") }
  | some p =>
    if !p.2.authenticated && !p.2.auth_succeeds then
      { success := false
        platform := p.2.display_name
        error := some "Authentication failed" }
    else
      match p.2.upload_behavior video_path title description tags with
      | Except.ok r => r
      | Except.error e =>
        { success := false, platform := p.2.display_name, error := some e }

/-- MultiPlatformUploader.upload_multi.  A missing video file short-circuits to
one shared failed result per requested destination before any adapter is
touched.  In parallel mode, ThreadPoolExecutor(max_workers=len(platforms))
raises ValueError when the destination list is empty; with destinations
present, one task per destination runs upload_single (results arrive in
completion order, a permutation of the submission order modelled here; every
property proved about the parallel result list is invariant under that
permutation).  Sequential mode maps upload_single in order. -/
def upload_multi (u : MultiPlatformUploader) (platforms : List String)
    (video_path title description : String) (tags : Option (List String))
    (file_exists : String → Bool) (parallel : Bool) : Except String (List UploadResult) :=
  if !file_exists video_path then
    Except.ok (List.replicate platforms.length
      { success := false
        platform := "All"
        error := some ("Video file not found: " ++ video_path) })
  else if parallel then
    if platforms.isEmpty then
      Except.error "max_workers must be greater than 0"
    else
      Except.ok (platforms.map (fun p => upload_single u p video_path title description tags))
  else
    Except.ok (platforms.map (fun p => upload_single u p video_path title description tags))

/-- os.path.join for the relative paths built by the scheduler. -/
def path_join (parts : List String) : String := String.intercalate "/" parts

/-- Python truthiness fallback a or b on an optional string: empty strings are
falsy. -/
def py_or (a : Option String) (b : String) : String :=
  match a with
  | some s => if s == "" then b else s
  | none => b

/-- The error summary built in process_pending_posts when every destination
failed: the join of the individual error strings of the results whose error
field is truthy (present and non-empty). -/
def joined_errors (results : List UploadResult) : String :=
  String.intercalate "; " (results.filterMap (fun r =>
    match r.error with
    | some e => if e == "" then none else some e
    | none => none))

/-- External collaborators of process_pending_posts: the filesystem existence
check used by upload_multi, the manifest file reader (Except.error models a
raised exception, message included), and the MultiPlatformUploader constructed
for the requested platform list. -/
structure ProcessEnv where
  file_exists : String → Bool
  read_manifest : String → Except String (List Clip)
  make_uploader : List String → MultiPlatformUploader

/-- Outcome of processing one due job: the updated database, whether the
posted counter (rather than the failed counter) was incremented, and a ghost
flag recording whether upload_multi was invoked for this job. -/
structure PostOutcome where
  db : SchedulerDB
  posted : Bool
  uploader_invoked : Bool

/-- Body of the per-job loop of process_pending_posts (non-dry-run).  Any
exception raised while reading the manifest, locating the clip, or building
the clip path lands in the catch-all handler, which marks the job failed with
the exception message; otherwise the dispatcher result decides between
mark_posted (any success) and mark_failed (all failed, joined errors). -/
def process_one_post (env : ProcessEnv) (db : SchedulerDB) (now : Int)
    (clips_output_root : String) (post : ScheduledPost) : PostOutcome :=
  let manifest_path := path_join [clips_output_root, post.video_id, "manifest.json"]
  match env.read_manifest manifest_path with
  | Except.error e =>
    { db := mark_failed db now post.id e, posted := false, uploader_invoked := false }
  | Except.ok manifest =>
    match manifest.find? (fun c => c.clip_index == post.clip_index) with
    | none =>
      { db := mark_failed db now post.id
          ("Clip " ++ toString post.clip_index ++ " not found in manifest")
        posted := false
        uploader_invoked := false }
    | some clip =>
      match clip.file_name with
      | none =>
        -- clip.get("file_name") is None, so os.path.join raises TypeError
        { db := mark_failed db now post.id
            "expected str, bytes or os.PathLike object, not NoneType"
          posted := false
          uploader_invoked := false }
      | some file_name =>
        let file_path := path_join [clips_output_root, post.video_id, "clips", file_name]
        let platforms := split_char (Char.ofNat 44) post.platforms
        let uploader := env.make_uploader platforms
        match upload_multi uploader platforms (py_or post.video_url file_path)
            (py_or post.title (clip.title.getD ""))
            (py_or post.description (clip.description.getD ""))
            none env.file_exists true with
        | Except.error e =>
          { db := mark_failed db now post.id e, posted := false, uploader_invoked := true }
        | Except.ok results =>
          if results.any (fun r => r.success) then
            { db := mark_posted db now post.id results
              posted := true
              uploader_invoked := true }
          else
            { db := mark_failed db now post.id (joined_errors results)
              posted := false
              uploader_invoked := true }

/-- Aggregate counters returned by process_pending_posts. -/
structure ProcessStats where
  posted : Nat
  failed : Nat
deriving Repr, DecidableEq

/-- The job loop of process_pending_posts: dry-run skips every job unchanged;
otherwise each job is processed in order and contributes exactly one unit to
either counter. -/
def process_posts_loop (env : ProcessEnv) (now : Int) (clips_output_root : String)
    (dry_run : Bool) : List ScheduledPost → SchedulerDB → SchedulerDB × ProcessStats
  | [], db => (db, { posted := 0, failed := 0 })
  | post :: rest, db =>
    if dry_run then process_posts_loop env now clips_output_root dry_run rest db
    else
      let o := process_one_post env db now clips_output_root post
      let next := process_posts_loop env now clips_output_root dry_run rest o.db
      (next.1,
       if o.posted then { posted := next.2.posted + 1, failed := next.2.failed }
       else { posted := next.2.posted, failed := next.2.failed + 1 })

/-- process_pending_posts in scheduler.py: fetch the due jobs (status pending,
scheduled at or before now, oldest first) and run the job loop over them. -/
def process_pending_posts (env : ProcessEnv) (db : SchedulerDB) (now : Int)
    (clips_output_root : String) (dry_run : Bool) : SchedulerDB × ProcessStats :=
  process_posts_loop env now clips_output_root dry_run (get_pending_posts db now) db

/-- PlatformConfig in platforms/base.py. -/
structure PlatformConfig where
  max_duration : Nat
  min_duration : Nat
  aspect_ratio : String
  max_file_size : Nat
  supported_formats : List String
  max_title_length : Nat
  max_description_length : Nat
  max_tags : Nat
  max_hashtags : Nat
  requires_auth : Bool
  rate_limit_per_day : Option Nat := none
  rate_limit_per_hour : Option Nat := none
deriving Repr, DecidableEq

/-- The parts of the filesystem that adapter validation consults: existence
and size of a file (Path.exists and Path.stat().st_size). -/
structure FileSystem where
  file_exists : String → Bool
  file_size : String → Nat

/-- pathlib Path(p).suffix: the extension of the final path component,
including the leading dot; empty for names with no dot and for hidden files
whose only dot is the leading one. -/
def path_suffix (p : String) : String :=
  let base := (split_char (Char.ofNat 47) p).getLastD ""
  match split_char (Char.ofNat 46) base with
  | [] => ""
  | [_] => ""
  | first :: rest =>
    let last := (first :: rest).getLastD ""
    if last == "" then ""
    else if first == "" && rest.length == 1 then ""
    else "." ++ last

/-- Platform.validate_video in platforms/base.py: existence, size ceiling,
container format.  The source renders the sizes of the too-large message with
float MB formatting; the embedding renders them with integer MB division,
which no theorem below inspects. -/
def validate_video (cfg : PlatformConfig) (fs : FileSystem) (video_path : String) :
    Bool × Option String :=
  if !fs.file_exists video_path then
    (false, some ("Video file not found: " ++ video_path))
  else if fs.file_size video_path > cfg.max_file_size then
    (false, some ("File too large: " ++ toString (fs.file_size video_path / (1024 * 1024)) ++
      "MB (max: " ++ toString (cfg.max_file_size / (1024 * 1024)) ++ "MB)"))
  else
    let extension := str_lower (lstrip_char (Char.ofNat 46) (path_suffix video_path))
    if !cfg.supported_formats.contains extension then
      (false, some ("Unsupported format: " ++ extension ++ " (supported: " ++
        String.intercalate ", " cfg.supported_formats ++ ")"))
    else (true, none)

/-- Platform.validate_metadata in platforms/base.py: title length, description
length, tag count (the tag check only fires when the tags list is truthy). -/
def validate_metadata (cfg : PlatformConfig) (title description : String)
    (tags : Option (List String)) : Bool × Option String :=
  if title.length > cfg.max_title_length then
    (false, some ("Title too long: " ++ toString title.length ++ " chars (max: " ++
      toString cfg.max_title_length ++ ")"))
  else if description.length > cfg.max_description_length then
    (false, some ("Description too long: " ++ toString description.length ++
      " chars (max: " ++ toString cfg.max_description_length ++ ")"))
  else
    match tags with
    | some ts =>
      if !ts.isEmpty && decide (ts.length > cfg.max_tags) then
        (false, some ("Too many tags: " ++ toString ts.length ++ " (max: " ++
          toString cfg.max_tags ++ ")"))
      else (true, none)
    | none => (true, none)

/-- Platform.format_hashtags in platforms/base.py. -/
def format_hashtags (cfg : PlatformConfig) (tags : List String) : String :=
  let clean_tags := tags.map (fun tag =>
    remove_char (Char.ofNat 32) (lstrip_char (Char.ofNat 35) (str_strip tag)))
  String.intercalate " " ((clean_tags.take cfg.max_hashtags).map (fun tag => "#" ++ tag))

/-- TikTokPlatform.config. -/
def tiktokConfig : PlatformConfig :=
  { max_duration := 600
    min_duration := 1
    aspect_ratio := "9:16"
    max_file_size := 500 * 1024 * 1024
    supported_formats := ["mp4", "mov", "webm"]
    max_title_length := 150
    max_description_length := 2200
    max_tags := 30
    max_hashtags := 30
    requires_auth := true }

/-- YouTubeShortsplatform.config. -/
def youtubeConfig : PlatformConfig :=
  { max_duration := 60
    min_duration := 1
    aspect_ratio := "9:16"
    max_file_size := 256 * 1024 * 1024
    supported_formats := ["mp4", "mov", "avi", "wmv", "flv", "3gp", "webm"]
    max_title_length := 100
    max_description_length := 5000
    max_tags := 500
    max_hashtags := 15
    requires_auth := true
    rate_limit_per_day := some 50 }

/-- Externals of TikTokPlatform.upload: the filesystem seen by validate_video
and whether an authenticate() call would succeed (config file, token, network
check collapsed to its boolean outcome). -/
structure TikTokEnv where
  fs : FileSystem
  auth_succeeds : Bool

/-- The stubbed failure TikTokPlatform.upload always returns after
validation. -/
def tiktok_not_implemented_error : String :=
  "TikTok API requires approved developer account and OAuth flow. See: https://developers.tiktok.com/doc/content-posting-api-get-started/"

/-- TikTokPlatform.upload: authenticate first when needed, validate the video,
build the caption (title falling back to description, hashtags appended,
truncated to the caption limit — the metadata is truncated, never passed to
validate_metadata), then return the stubbed not-implemented failure. -/
def tiktok_upload (env : TikTokEnv) (authenticated : Bool)
    (video_path title description : String) (tags : Option (List String)) : UploadResult :=
  if !authenticated && !env.auth_succeeds then
    { success := false
      platform := "TikTok"
      error := some "Authentication failed. TikTok requires approved developer access." }
  else
    match validate_video tiktokConfig env.fs video_path with
    | (false, e) => { success := false, platform := "TikTok", error := e }
    | (true, _) =>
      let caption := if title == "" then description else title
      let caption := match tags with
        | some ts =>
          if !ts.isEmpty then
            caption ++ " " ++ format_hashtags tiktokConfig (ts.take tiktokConfig.max_hashtags)
          else caption
        | none => caption
      let _caption := caption.take tiktokConfig.max_title_length
      { success := false, platform := "TikTok", error := some tiktok_not_implemented_error }

/-- Externals of YouTubeShortsplatform.upload: filesystem, the outcome of
authenticate(), and the response of the videos().insert network call
(Except.ok carries the uploaded video id, Except.error the HttpError or other
exception message). -/
structure YouTubeEnv where
  fs : FileSystem
  auth_succeeds : Bool
  insert_response : Except String String

/-- YouTubeShortsplatform.upload: authenticate first when needed, validate the
video, append the Shorts hashtag and any further hashtags to the description,
truncate the title and description to their limits, validate the truncated
metadata, then perform the network upload, mapping errors to a failed
result. -/
def youtube_upload (env : YouTubeEnv) (authenticated : Bool)
    (video_path title description : String) (tags : Option (List String)) : UploadResult :=
  if !authenticated && !env.auth_succeeds then
    { success := false, platform := "YouTube Shorts", error := some "Authentication failed" }
  else
    match validate_video youtubeConfig env.fs video_path with
    | (false, e) => { success := false, platform := "YouTube Shorts", error := e }
    | (true, _) =>
      let description :=
        if !description.containsSubstr "#Shorts".toSubstring
            && !description.containsSubstr "#shorts".toSubstring then
          description ++ "\n\n#Shorts"
        else description
      let description := match tags with
        | some ts =>
          if !ts.isEmpty then
            description ++ "\n\n" ++ format_hashtags youtubeConfig (ts.take youtubeConfig.max_hashtags)
          else description
        | none => description
      let title := title.take youtubeConfig.max_title_length
      let description := description.take youtubeConfig.max_description_length
      match validate_metadata youtubeConfig title description tags with
      | (false, e) => { success := false, platform := "YouTube Shorts", error := e }
      | (true, _) =>
        match env.insert_response with
        | Except.ok vid =>
          { success := true
            platform := "YouTube Shorts"
            video_id := some vid
            url := some ("https://www.youtube.com/shorts/" ++ vid)
            metadata := some [("privacy_status", "public"), ("category_id", "22")] }
        | Except.error e =>
          { success := false, platform := "YouTube Shorts", error := some e }

/-- One call against the PostScheduler job store. -/
inductive StoreOp where
  | schedule (now : Int) (video_id : String) (clip_index : Int) (platforms : List String)
      (scheduled_time : Int) (video_url thumbnail_url title description : Option String)
  | markPosted (now : Int) (post_id : Nat) (result : List UploadResult)
  | markFailed (now : Int) (post_id : Nat) (error : String)
  | cancel (post_id : Nat)

/-- Effect of one store operation on the database. -/
def apply_op (db : SchedulerDB) : StoreOp → SchedulerDB
  | StoreOp.schedule now vid idx ps t vu tu ti de =>
    (schedule_post db now vid idx ps t vu tu ti de).1
  | StoreOp.markPosted now pid r => mark_posted db now pid r
  | StoreOp.markFailed now pid e => mark_failed db now pid e
  | StoreOp.cancel pid => (cancel_post db pid).1

/-- Effect of a sequence of store operations, first to last. -/
def apply_ops (db : SchedulerDB) : List StoreOp → SchedulerDB
  | [] => db
  | op :: rest => apply_ops (apply_op db op) rest

/-- Entries held by a stored result value: the per-destination list for the
posted shape, none for the single error object written by mark_failed. -/
def job_result_entries : JobResult → List UploadResult
  | JobResult.entries rs => rs
  | JobResult.errorRecord _ => []

/-- The spec invariant on stored results, rendered from its words: a non-null
result contains exactly one outcome entry per destination named in the
destinations list of the job, each entry attributed to that destination
name. -/
def result_attributed_per_destination (row : ScheduledPost) : Prop :=
  ∀ jr, row.result = some jr →
    List.Perm ((job_result_entries jr).map (fun r => r.platform))
      (split_char (Char.ofNat 44) row.platforms)

/-- The row schedule_batch inserts for one clip: status pending, title
defaulting to a Clip # label, description defaulting to empty. -/
def batch_row (now : Int) (video_id : String) (platforms : List String)
    (clip : Clip) (pid : Nat) (t : Int) : ScheduledPost :=
  { id := pid
    video_id := video_id
    clip_index := clip.clip_index
    platforms := String.intercalate "," platforms
    scheduled_time := t
    status := "pending"
    video_url := none
    thumbnail_url := none
    title := some (match clip.title with
      | some s => s
      | none => "Clip #" ++ toString clip.clip_index)
    description := some (clip.description.getD "")
    result := none
    created_at := some now
    posted_at := none }

/-- The block of rows a schedule_batch loop appends: consecutive ids from pid,
scheduled times stepping by 3600 * interval_hours. -/
def batch_rows (now : Int) (video_id : String) (platforms : List String)
    (interval_hours : Int) : List Clip → Nat → Int → List ScheduledPost
  | [], _, _ => []
  | c :: rest, pid, t =>
    batch_row now video_id platforms c pid t ::
      batch_rows now video_id platforms interval_hours rest (pid + 1) (t + 3600 * interval_hours)

/- Concrete scenarios used by the counterexample and witness theorems below. -/

/-- A database holding one pending job with id 1 for two destinations. -/
def demo_post : ScheduledPost :=
  { id := 1
    video_id := "vid1"
    clip_index := 1
    platforms := "youtube,tiktok"
    scheduled_time := 0
    status := "pending" }

/-- Database containing exactly demo_post. -/
def demo_db : SchedulerDB := { rows := [demo_post], next_id := 2 }

/-- A manifest entry matching demo_post. -/
def demo_clip : Clip :=
  { clip_index := 1, title := some "T", description := some "D", file_name := some "clip1.mp4" }

/-- Environment whose uploader has no initialized adapters at all, so every
destination fails with a not-initialized result. -/
def demo_env_uninitialized : ProcessEnv :=
  { file_exists := fun _ => true
    read_manifest := fun _ => Except.ok [demo_clip]
    make_uploader := fun ps => { platform_names := ps, platforms := [] } }

/-- The joined error text produced when both destinations of demo_post are
uninitialized. -/
def demo_joined_error : String :=
  "Platform " ++ sq ++ "youtube" ++ sq ++ " not initialized; Platform " ++
    sq ++ "tiktok" ++ sq ++ " not initialized"

/-- The per-destination failures the dispatcher returns for demo_post when no
adapter is initialized. -/
def demo_results_uninit : List UploadResult :=
  [{ success := false
     platform := "youtube"
     error := some ("Platform " ++ sq ++ "youtube" ++ sq ++ " not initialized") },
   { success := false
     platform := "tiktok"
     error := some ("Platform " ++ sq ++ "tiktok" ++ sq ++ " not initialized") }]

/-- The row demo_post becomes after that all-failed processing pass. -/
def demo_failed_row : ScheduledPost :=
  { demo_post with
      status := "failed"
      result := some (JobResult.errorRecord demo_joined_error)
      posted_at := some 500 }

/-- An adapter that uploads successfully. -/
def demo_ok_inst : PlatformInst :=
  { display_name := "A"
    authenticated := true
    auth_succeeds := true
    upload_behavior := fun _ _ _ _ => Except.ok { success := true, platform := "A" } }

/-- An adapter whose upload always fails. -/
def demo_fail_inst : PlatformInst :=
  { display_name := "B"
    authenticated := true
    auth_succeeds := true
    upload_behavior := fun _ _ _ _ =>
      Except.ok { success := false, platform := "B", error := some "boom" } }

/-- A pending job fanning out to destinations a and b. -/
def demo_post_ab : ScheduledPost :=
  { id := 1
    video_id := "v"
    clip_index := 3
    platforms := "a,b"
    scheduled_time := 10
    status := "pending" }

/-- Database containing exactly demo_post_ab. -/
def demo_db_ab : SchedulerDB := { rows := [demo_post_ab], next_id := 2 }

/-- A manifest entry matching demo_post_ab. -/
def demo_clip_ab : Clip :=
  { clip_index := 3, title := some "T", description := some "D", file_name := some "c3.mp4" }

/-- Environment where destination a succeeds and destination b fails. -/
def demo_env_ab : ProcessEnv :=
  { file_exists := fun _ => true
    read_manifest := fun _ => Except.ok [demo_clip_ab]
    make_uploader := fun ps =>
      { platform_names := ps, platforms := [("a", demo_ok_inst), ("b", demo_fail_inst)] } }

/-- The dispatcher result list for demo_post_ab under demo_env_ab. -/
def demo_results_ab : List UploadResult :=
  [{ success := true, platform := "A" },
   { success := false, platform := "B", error := some "boom" }]

/-- Environment whose manifest read raises (file missing). -/
def demo_env_noman : ProcessEnv :=
  { file_exists := fun _ => true
    read_manifest := fun _ => Except.error "manifest missing"
    make_uploader := fun ps => { platform_names := ps, platforms := [] } }

/-- Database evolution for the status counterexample: schedule one job... -/
def demo_c3_db0 : SchedulerDB :=
  (schedule_post SchedulerDB.empty 0 "vid" 1 ["youtube"] 100 none none none none).1

/-- ...mark it posted... -/
def demo_c3_db1 : SchedulerDB :=
  mark_posted demo_c3_db0 200 1 [{ success := true, platform := "YouTube Shorts" }]

/-- ...then mark the same job failed. -/
def demo_c3_db2 : SchedulerDB := mark_failed demo_c3_db1 300 1 "late failure"

/-- Filesystem on which only clip.mp4 exists, small. -/
def demo_fs_clip : FileSystem :=
  { file_exists := fun p => p == "clip.mp4", file_size := fun _ => 1000 }

/-- TikTok adapter environment with working authentication over that
filesystem. -/
def demo_tiktok_env : TikTokEnv := { fs := demo_fs_clip, auth_succeeds := true }

/-- A 151-character title, one over the TikTok caption limit of 150. -/
def demo_long_title : String := String.mk (List.replicate 151 (Char.ofNat 97))

/- Helper lemmas shared by the claim theorems. -/

theorem process_one_post_manifest_error (env : ProcessEnv) (db : SchedulerDB) (now : Int)
    (root : String) (post : ScheduledPost) (e : String)
    (h : env.read_manifest (path_join [root, post.video_id, "manifest.json"]) = Except.error e) :
    process_one_post env db now root post =
      { db := mark_failed db now post.id e, posted := false, uploader_invoked := false } := by
  simp only [process_one_post]
  rw [h]

theorem process_one_post_clip_missing (env : ProcessEnv) (db : SchedulerDB) (now : Int)
    (root : String) (post : ScheduledPost) (manifest : List Clip)
    (hman : env.read_manifest (path_join [root, post.video_id, "manifest.json"]) =
      Except.ok manifest)
    (hclip : manifest.find? (fun c => c.clip_index == post.clip_index) = none) :
    process_one_post env db now root post =
      { db := mark_failed db now post.id
          ("Clip " ++ toString post.clip_index ++ " not found in manifest")
        posted := false
        uploader_invoked := false } := by
  simp only [process_one_post]
  rw [hman]
  simp only []
  rw [hclip]

theorem process_one_post_dispatched (env : ProcessEnv) (db : SchedulerDB) (now : Int)
    (root : String) (post : ScheduledPost) (manifest : List Clip) (clip : Clip) (fn : String)
    (results : List UploadResult)
    (hman : env.read_manifest (path_join [root, post.video_id, "manifest.json"]) =
      Except.ok manifest)
    (hclip : manifest.find? (fun c => c.clip_index == post.clip_index) = some clip)
    (hfn : clip.file_name = some fn)
    (hup : upload_multi (env.make_uploader (split_char (Char.ofNat 44) post.platforms))
        (split_char (Char.ofNat 44) post.platforms)
        (py_or post.video_url (path_join [root, post.video_id, "clips", fn]))
        (py_or post.title (clip.title.getD ""))
        (py_or post.description (clip.description.getD ""))
        none env.file_exists true = Except.ok results) :
    process_one_post env db now root post =
      (if results.any (fun r => r.success) then
        { db := mark_posted db now post.id results, posted := true, uploader_invoked := true }
      else
        { db := mark_failed db now post.id (joined_errors results)
          posted := false
          uploader_invoked := true }) := by
  simp only [process_one_post]
  rw [hman]
  simp only []
  rw [hclip]
  simp only []
  rw [hfn]
  simp only []
  rw [hup]

theorem find?_update (rows : List ScheduledPost) (pid : Nat) (g : ScheduledPost → ScheduledPost)
    (hg : ∀ r, (g r).id = r.id) :
    (rows.map (fun r => if r.id = pid then g r else r)).find? (fun r => r.id == pid) =
      (rows.find? (fun r => r.id == pid)).map g := by
  induction rows with
  | nil => rfl
  | cons r rest ih =>
    by_cases h : r.id = pid
    · simp [List.find?_cons, h, hg]
    · simp [List.find?_cons, h, ih]

theorem find_post_mark_posted (db : SchedulerDB) (now : Int) (pid : Nat)
    (res : List UploadResult) :
    find_post (mark_posted db now pid res) pid =
      (find_post db pid).map (fun r =>
        { r with status := "posted"
                 result := if res.isEmpty then none else some (JobResult.entries res)
                 posted_at := some now }) := by
  simp only [find_post, mark_posted]
  exact find?_update db.rows pid _ (fun _ => rfl)

theorem find_post_mark_failed (db : SchedulerDB) (now : Int) (pid : Nat) (e : String) :
    find_post (mark_failed db now pid e) pid =
      (find_post db pid).map (fun r =>
        { r with status := "failed"
                 result := some (JobResult.errorRecord e)
                 posted_at := some now }) := by
  simp only [find_post, mark_failed]
  exact find?_update db.rows pid _ (fun _ => rfl)

theorem mem_get_pending_posts (db : SchedulerDB) (before : Int) (p : ScheduledPost) :
    p ∈ get_pending_posts db before ↔
      p ∈ db.rows ∧ p.status = "pending" ∧ p.scheduled_time ≤ before := by
  unfold get_pending_posts
  rw [(List.mergeSort_perm _ sched_le).mem_iff, List.mem_filter]
  simp [and_assoc]

theorem get_pending_posts_sorted (db : SchedulerDB) (before : Int) :
    List.Pairwise (fun a b : ScheduledPost => a.scheduled_time ≤ b.scheduled_time)
      (get_pending_posts db before) := by
  unfold get_pending_posts
  refine List.Pairwise.imp (fun hab => ?_)
    (@List.sorted_mergeSort _ sched_le ?_ ?_ _)
  · exact of_decide_eq_true hab
  · intro a b c hab hbc
    exact decide_eq_true (le_trans (of_decide_eq_true hab) (of_decide_eq_true hbc))
  · intro a b
    rcases le_total a.scheduled_time b.scheduled_time with h | h
    · simp [sched_le, h]
    · simp [sched_le, h]

theorem process_posts_loop_counts (env : ProcessEnv) (now : Int) (root : String) :
    ∀ (posts : List ScheduledPost) (db : SchedulerDB),
      (process_posts_loop env now root false posts db).2.posted +
        (process_posts_loop env now root false posts db).2.failed = posts.length := by
  intro posts
  induction posts with
  | nil => intro db; rfl
  | cons post rest ih =>
    intro db
    have hrec := ih (process_one_post env db now root post).db
    by_cases h : (process_one_post env db now root post).posted = true
    · simp [process_posts_loop, h]
      omega
    · simp only [Bool.not_eq_true] at h
      simp [process_posts_loop, h]
      omega

theorem schedule_clips_next_id (now : Int) (vid : String) (ps : List String) (H : Int) :
    ∀ (clips : List Clip) (db : SchedulerDB) (t : Int),
      (schedule_clips now vid ps H clips db t).1.next_id = db.next_id + clips.length := by
  intro clips
  induction clips with
  | nil => intro db t; rfl
  | cons c rest ih =>
    intro db t
    simp only [schedule_clips, ih, schedule_post, List.length_cons]
    omega

theorem schedule_clips_ids (now : Int) (vid : String) (ps : List String) (H : Int) :
    ∀ (clips : List Clip) (db : SchedulerDB) (t : Int),
      (schedule_clips now vid ps H clips db t).2 = List.range' db.next_id clips.length := by
  intro clips
  induction clips with
  | nil => intro db t; rfl
  | cons c rest ih =>
    intro db t
    simp only [schedule_clips, ih, schedule_post, List.length_cons, List.range']

theorem schedule_clips_rows (now : Int) (vid : String) (ps : List String) (H : Int) :
    ∀ (clips : List Clip) (db : SchedulerDB) (t : Int),
      (schedule_clips now vid ps H clips db t).1.rows =
        db.rows ++ batch_rows now vid ps H clips db.next_id t := by
  intro clips
  induction clips with
  | nil => intro db t; simp [schedule_clips, batch_rows]
  | cons c rest ih =>
    intro db t
    simp only [schedule_clips, ih, schedule_post, batch_rows, batch_row,
      List.append_assoc, List.singleton_append]

theorem batch_rows_find? (now : Int) (vid : String) (ps : List String) (H : Int) :
    ∀ (clips : List Clip) (i pid : Nat) (t : Int) (hi : i < clips.length),
      (batch_rows now vid ps H clips pid t).find? (fun r => r.id == pid + i) =
        some (batch_row now vid ps (clips.get ⟨i, hi⟩) (pid + i) (t + 3600 * H * i)) := by
  intro clips
  induction clips with
  | nil => intro i pid t hi; exact absurd hi (by simp)
  | cons c rest ih =>
    intro i pid t hi
    cases i with
    | zero =>
      simp [batch_rows, List.find?_cons, batch_row]
    | succ j =>
      have hj : j < rest.length := by simpa using hi
      have hne : ((batch_row now vid ps c pid t).id == pid + (j + 1)) = false := by
        simp only [batch_row, beq_eq_false_iff_ne, ne_eq]
        omega
      have hrec := ih j (pid + 1) (t + 3600 * H) hj
      have e1 : pid + 1 + j = pid + (j + 1) := by omega
      have e2 : t + 3600 * H + 3600 * H * (j : Int) = t + 3600 * H * ((j : Int) + 1) := by
        ring
      rw [e1, e2] at hrec
      simp only [batch_rows, Nat.succ_eq_add_one, List.find?_cons, hne, List.get_cons_succ,
        Nat.cast_add, Nat.cast_one]
      exact hrec

theorem upload_multi_ok_length (u : MultiPlatformUploader) (ps : List String)
    (path ti de : String) (tags : Option (List String)) (fex : String → Bool)
    (par : Bool) (rs : List UploadResult)
    (h : upload_multi u ps path ti de tags fex par = Except.ok rs) :
    rs.length = ps.length := by
  unfold upload_multi at h
  split at h
  · injection h with h
    subst h
    simp
  · split at h
    · split at h
      · simp at h
      · injection h with h
        subst h
        simp
    · injection h with h
      subst h
      simp

theorem map_update_keeps_terminal (rows : List ScheduledPost) (pid qid : Nat)
    (g : ScheduledPost → ScheduledPost) (st : String) (hst : st ≠ "pending")
    (hgs : ∀ r, (g r).status = st)
    (h1 : ∀ r ∈ rows, r.id = pid → r.status ≠ "pending") :
    ∀ r ∈ rows.map (fun r => if r.id = qid then g r else r),
      r.id = pid → r.status ≠ "pending" := by
  intro r hr
  simp only [List.mem_map] at hr
  obtain ⟨r0, hr0, rfl⟩ := hr
  by_cases hq : r0.id = qid
  · rw [if_pos hq]
    intro _
    rw [hgs]
    exact hst
  · rw [if_neg hq]
    exact h1 r0 hr0

theorem apply_op_no_pending (db : SchedulerDB) (op : StoreOp) (pid : Nat)
    (h1 : ∀ r ∈ db.rows, r.id = pid → r.status ≠ "pending")
    (h2 : pid < db.next_id) :
    (∀ r ∈ (apply_op db op).rows, r.id = pid → r.status ≠ "pending") ∧
      pid < (apply_op db op).next_id := by
  cases op with
  | schedule now vid idx ps t vu tu ti de =>
    refine ⟨?_, by simp only [apply_op, schedule_post]; omega⟩
    intro r hr hid
    simp only [apply_op, schedule_post, List.mem_append, List.mem_singleton] at hr
    rcases hr with hr | hr
    · exact h1 r hr hid
    · subst hr
      simp only at hid
      omega
  | markPosted now qid res =>
    exact ⟨map_update_keeps_terminal db.rows pid qid _ "posted" (by decide)
      (fun _ => rfl) h1, h2⟩
  | markFailed now qid e =>
    exact ⟨map_update_keeps_terminal db.rows pid qid _ "failed" (by decide)
      (fun _ => rfl) h1, h2⟩
  | cancel qid =>
    refine ⟨?_, h2⟩
    intro r hr hid
    simp only [apply_op, cancel_post, List.mem_filter] at hr
    exact h1 r hr.1 hid

theorem apply_ops_no_pending (pid : Nat) :
    ∀ (ops : List StoreOp) (db : SchedulerDB),
      (∀ r ∈ db.rows, r.id = pid → r.status ≠ "pending") → pid < db.next_id →
      ∀ r ∈ (apply_ops db ops).rows, r.id = pid → r.status ≠ "pending" := by
  intro ops
  induction ops with
  | nil => intro db h1 _; exact h1
  | cons op rest ih =>
    intro db h1 h2
    obtain ⟨h1a, h2a⟩ := apply_op_no_pending db op pid h1 h2
    exact ih (apply_op db op) h1a h2a

theorem apply_op_absent (db : SchedulerDB) (op : StoreOp) (pid : Nat)
    (h1 : ∀ r ∈ db.rows, r.id ≠ pid) (h2 : pid < db.next_id) :
    (∀ r ∈ (apply_op db op).rows, r.id ≠ pid) ∧ pid < (apply_op db op).next_id := by
  cases op with
  | schedule now vid idx ps t vu tu ti de =>
    refine ⟨?_, by simp only [apply_op, schedule_post]; omega⟩
    intro r hr
    simp only [apply_op, schedule_post, List.mem_append, List.mem_singleton] at hr
    rcases hr with hr | hr
    · exact h1 r hr
    · subst hr
      simp only
      omega
  | markPosted now qid res =>
    refine ⟨?_, h2⟩
    intro r hr
    simp only [apply_op, mark_posted, List.mem_map] at hr
    obtain ⟨r0, hr0, rfl⟩ := hr
    by_cases hq : r0.id = qid
    · rw [if_pos hq]
      exact h1 r0 hr0
    · rw [if_neg hq]
      exact h1 r0 hr0
  | markFailed now qid e =>
    refine ⟨?_, h2⟩
    intro r hr
    simp only [apply_op, mark_failed, List.mem_map] at hr
    obtain ⟨r0, hr0, rfl⟩ := hr
    by_cases hq : r0.id = qid
    · rw [if_pos hq]
      exact h1 r0 hr0
    · rw [if_neg hq]
      exact h1 r0 hr0
  | cancel qid =>
    refine ⟨?_, h2⟩
    intro r hr
    simp only [apply_op, cancel_post, List.mem_filter] at hr
    exact h1 r hr.1

theorem apply_ops_absent (pid : Nat) :
    ∀ (ops : List StoreOp) (db : SchedulerDB),
      (∀ r ∈ db.rows, r.id ≠ pid) → pid < db.next_id →
      ∀ r ∈ (apply_ops db ops).rows, r.id ≠ pid := by
  intro ops
  induction ops with
  | nil => intro db h1 _; exact h1
  | cons op rest ih =>
    intro db h1 h2
    obtain ⟨h1a, h2a⟩ := apply_op_absent db op pid h1 h2
    exact ih (apply_op db op) h1a h2a

theorem cancel_post_ret (db : SchedulerDB) (pid : Nat) :
    (cancel_post db pid).2 = true ↔ ∃ r ∈ db.rows, r.id = pid ∧ r.status = "pending" := by
  simp [cancel_post, List.any_eq_true]

theorem cancel_absent (db : SchedulerDB) (pid : Nat) (hwf : db.WF)
    (hc : (cancel_post db pid).2 = true) :
    (∀ r ∈ (cancel_post db pid).1.rows, r.id ≠ pid) ∧
      pid < (cancel_post db pid).1.next_id := by
  obtain ⟨hlt, huniq⟩ := hwf
  obtain ⟨r0, hr0, hid0, hst0⟩ := (cancel_post_ret db pid).mp hc
  constructor
  · intro r hr hid
    simp only [cancel_post, List.mem_filter, Bool.not_eq_eq_eq_not, Bool.not_true,
      Bool.and_eq_false_iff] at hr
    obtain ⟨hrmem, hkeep⟩ := hr
    have hrne : r ≠ r0 := by
      intro h
      subst h
      rcases hkeep with hk | hk
      · simp [hid] at hk
      · simp [hst0] at hk
    have := (List.Pairwise.forall (fun a b h => (Ne.symm h)) huniq) hrmem hr0 hrne
    exact this (hid.trans hid0.symm)
  · have := hlt r0 hr0
    simp only [cancel_post]
    omega

/- Claim theorems. -/

/-- C5: get_pending_posts returns exactly the stored jobs whose status is
pending and whose scheduled_time is at or before the cutoff — a job scheduled
in the future is never returned — and the list is sorted by ascending
scheduled_time, oldest due first. -/
theorem claim_c5_get_pending_posts (db : SchedulerDB) (before : Int) :
    (∀ p, p ∈ get_pending_posts db before ↔
      p ∈ db.rows ∧ p.status = "pending" ∧ p.scheduled_time ≤ before) ∧
    List.Pairwise (fun a b : ScheduledPost => a.scheduled_time ≤ b.scheduled_time)
      (get_pending_posts db before) :=
  ⟨fun p => mem_get_pending_posts db before p, get_pending_posts_sorted db before⟩

/-- C7: when the media file does not exist, upload_multi returns one failed
result per requested destination, all sharing the same file-not-found error.
The result is the same for every uploader value, so no adapter authenticate or
upload call can influence it — no adapter is touched. -/
theorem claim_c7_missing_file (u : MultiPlatformUploader) (ps : List String)
    (path ti de : String) (tags : Option (List String)) (fex : String → Bool) (par : Bool)
    (h : fex path = false) :
    upload_multi u ps path ti de tags fex par =
      Except.ok (List.replicate ps.length
        { success := false
          platform := "All"
          error := some ("Video file not found: " ++ path) }) := by
  unfold upload_multi
  rw [h]
  rfl

/-- Witness for C7 at a concrete uploader, destination pair and absent
file. -/
theorem claim_c7_missing_file_witness :
    (fun _ : String => false) "x.mp4" = false ∧
    upload_multi { platform_names := ["a"], platforms := [] } ["a", "b"] "x.mp4" "t" "d"
        none (fun _ => false) true =
      Except.ok (List.replicate 2
        { success := false
          platform := "All"
          error := some ("Video file not found: " ++ "x.mp4") }) :=
  ⟨rfl, claim_c7_missing_file _ _ _ _ _ _ _ _ rfl⟩

/-- C10: parallel dispatch of an existing file to an empty destination list
errors out (ThreadPoolExecutor is created with max_workers equal to zero)
instead of returning an empty result list. -/
theorem claim_c10_empty_parallel (u : MultiPlatformUploader) (path ti de : String)
    (tags : Option (List String)) (fex : String → Bool) (h : fex path = true) :
    upload_multi u [] path ti de tags fex true =
      Except.error "max_workers must be greater than 0" := by
  unfold upload_multi
  rw [h]
  rfl

/-- Witness for C10 at a concrete uploader and existing file. -/
theorem claim_c10_empty_parallel_witness :
    (fun _ : String => true) "x.mp4" = true ∧
    upload_multi { platform_names := [], platforms := [] } [] "x.mp4" "t" "d" none
        (fun _ => true) true = Except.error "max_workers must be greater than 0" :=
  ⟨rfl, claim_c10_empty_parallel _ _ _ _ _ _ rfl⟩

/-- C8: scheduling succeeds for every destination list — empty or containing
names unknown to the registry — by inserting one pending row and returning its
id; at dispatch time an uninitialized destination name yields a failed result
attributed to that name only, and with the media present the dispatcher still
attempts every requested destination independently of the others. -/
theorem claim_c8_dispatch_time_validation :
    (∀ (db : SchedulerDB) (now : Int) (vid : String) (idx : Int) (ps : List String)
        (t : Int) (vu tu ti de : Option String),
      (schedule_post db now vid idx ps t vu tu ti de).2 = db.next_id ∧
      (schedule_post db now vid idx ps t vu tu ti de).1.rows =
        db.rows ++
          [{ id := db.next_id
             video_id := vid
             clip_index := idx
             platforms := String.intercalate "," ps
             scheduled_time := t
             status := "pending"
             video_url := vu
             thumbnail_url := tu
             title := ti
             description := de
             result := none
             created_at := some now
             posted_at := none }]) ∧
    (∀ (u : MultiPlatformUploader) (name path ti de : String)
        (tags : Option (List String)),
      u.platforms.find? (fun p => p.1 == name) = none →
      upload_single u name path ti de tags =
        { success := false
          platform := name
          error := some ("Platform " ++ sq ++ name ++ sq ++ " not initialized") }) ∧
    (∀ (u : MultiPlatformUploader) (ps : List String) (path ti de : String)
        (tags : Option (List String)) (fex : String → Bool),
      fex path = true → ps ≠ [] →
      upload_multi u ps path ti de tags fex true =
        Except.ok (ps.map (fun p => upload_single u p path ti de tags))) := by
  refine ⟨fun db now vid idx ps t vu tu ti de => ⟨rfl, rfl⟩, ?_, ?_⟩
  · intro u name path ti de tags h
    unfold upload_single
    rw [h]
  · intro u ps path ti de tags fex hf hne
    unfold upload_multi
    rw [hf]
    cases ps with
    | nil => exact absurd rfl hne
    | cons p rest => rfl

/-- Witness for C8: an empty destination list schedules fine, and a name with
no initialized adapter fails individually while still being dispatched. -/
theorem claim_c8_dispatch_time_validation_witness :
    (schedule_post SchedulerDB.empty 0 "v" 1 [] 5 none none none none).2 = 1 ∧
    ({ platform_names := ["zzz"], platforms := [] } :
        MultiPlatformUploader).platforms.find? (fun p => p.1 == "zzz") = none ∧
    (fun _ : String => true) "x.mp4" = true ∧ (["zzz"] : List String) ≠ [] ∧
    upload_single { platform_names := ["zzz"], platforms := [] } "zzz" "x.mp4" "t" "d" none =
      { success := false
        platform := "zzz"
        error := some ("Platform " ++ sq ++ "zzz" ++ sq ++ " not initialized") } ∧
    upload_multi { platform_names := ["zzz"], platforms := [] } ["zzz"] "x.mp4" "t" "d"
        none (fun _ => true) true =
      Except.ok (List.map
        (fun p => upload_single { platform_names := ["zzz"], platforms := [] } p
          "x.mp4" "t" "d" none) ["zzz"]) :=
  ⟨(claim_c8_dispatch_time_validation.1 SchedulerDB.empty 0 "v" 1 [] 5
      none none none none).1,
   rfl, rfl, by decide,
   claim_c8_dispatch_time_validation.2.1 _ "zzz" "x.mp4" "t" "d" none rfl,
   claim_c8_dispatch_time_validation.2.2 _ ["zzz"] "x.mp4" "t" "d" none _ rfl
     (by decide)⟩

/-- C1: for a due job processed by process_pending_posts (not dry-run) whose
manifest lookup succeeds and whose fan-out returns a result list from the
dispatcher: if any result succeeded the job status is set to posted with the
full per-destination result list stored and the processed timestamp set; if
every result failed the status is set to failed with the individual error
strings recorded (joined into the stored error record) and the timestamp
set. -/
theorem claim_c1_outcome
    (env : ProcessEnv) (db : SchedulerDB) (now : Int) (root : String)
    (post : ScheduledPost) (manifest : List Clip) (clip : Clip) (fn : String)
    (results : List UploadResult) (row : ScheduledPost)
    (hman : env.read_manifest (path_join [root, post.video_id, "manifest.json"]) =
      Except.ok manifest)
    (hclip : manifest.find? (fun c => c.clip_index == post.clip_index) = some clip)
    (hfn : clip.file_name = some fn)
    (hup : upload_multi (env.make_uploader (split_char (Char.ofNat 44) post.platforms))
        (split_char (Char.ofNat 44) post.platforms)
        (py_or post.video_url (path_join [root, post.video_id, "clips", fn]))
        (py_or post.title (clip.title.getD ""))
        (py_or post.description (clip.description.getD ""))
        none env.file_exists true = Except.ok results)
    (hrow : find_post db post.id = some row) :
    (results.any (fun r => r.success) = true →
      find_post (process_one_post env db now root post).db post.id =
        some { row with status := "posted"
                        result := some (JobResult.entries results)
                        posted_at := some now } ∧
      (process_one_post env db now root post).posted = true) ∧
    (results.any (fun r => r.success) = false →
      find_post (process_one_post env db now root post).db post.id =
        some { row with status := "failed"
                        result := some (JobResult.errorRecord (joined_errors results))
                        posted_at := some now } ∧
      (process_one_post env db now root post).posted = false) := by
  have hd := process_one_post_dispatched env db now root post manifest clip fn results
    hman hclip hfn hup
  constructor
  · intro hs
    have hemp : results.isEmpty = false := by
      cases results with
      | nil => simp at hs
      | cons a l => rfl
    rw [hd, if_pos hs]
    refine ⟨?_, rfl⟩
    show find_post (mark_posted db now post.id results) post.id = _
    rw [find_post_mark_posted, hrow, hemp]
    rfl
  · intro hs
    rw [hd, if_neg (by rw [hs]; exact Bool.false_ne_true)]
    refine ⟨?_, rfl⟩
    show find_post (mark_failed db now post.id (joined_errors results)) post.id = _
    rw [find_post_mark_failed, hrow]
    rfl

/-- Witness for C1: one destination succeeds and one fails, so the job is
marked posted with both entries stored. -/
theorem claim_c1_outcome_witness :
    demo_env_ab.read_manifest
      (path_join ["clips_output", demo_post_ab.video_id, "manifest.json"]) =
      Except.ok [demo_clip_ab] ∧
    ([demo_clip_ab].find? (fun c => c.clip_index == demo_post_ab.clip_index) =
      some demo_clip_ab) ∧
    demo_clip_ab.file_name = some "c3.mp4" ∧
    find_post demo_db_ab demo_post_ab.id = some demo_post_ab ∧
    demo_results_ab.any (fun r => r.success) = true ∧
    (find_post
        (process_one_post demo_env_ab demo_db_ab 99 "clips_output" demo_post_ab).db
        demo_post_ab.id =
      some { demo_post_ab with
              status := "posted"
              result := some (JobResult.entries demo_results_ab)
              posted_at := some 99 } ∧
      (process_one_post demo_env_ab demo_db_ab 99 "clips_output" demo_post_ab).posted =
        true) :=
  ⟨rfl, by decide, rfl, by decide, by decide,
   (claim_c1_outcome demo_env_ab demo_db_ab 99 "clips_output" demo_post_ab
      [demo_clip_ab] demo_clip_ab "c3.mp4" demo_results_ab demo_post_ab
      rfl (by decide) rfl (by rfl) (by decide)).1 (by decide)⟩

/-- C2: schedule_batch over a manifest of N clips creates one pending job per
clip, the i-th created job (0-indexed, creation order) scheduled at
start_time + i * interval hours, and returns the N created job ids in creation
order (the consecutive ids handed out by the store). -/
theorem claim_c2_schedule_batch
    (db : SchedulerDB) (now : Int) (vid : String) (T0 H : Int)
    (ps : List String) (manifest : List Clip)
    (hwf : ∀ r ∈ db.rows, r.id < db.next_id) :
    (schedule_batch db now vid T0 H ps manifest).2 =
      List.range' db.next_id manifest.length ∧
    ∀ i < manifest.length,
      ∃ row, find_post (schedule_batch db now vid T0 H ps manifest).1
          (db.next_id + i) = some row ∧
        row.scheduled_time = T0 + 3600 * H * (i : Int) ∧
        row.status = "pending" := by
  have hlen : (manifest.mergeSort clip_le).length = manifest.length :=
    (List.mergeSort_perm manifest clip_le).length_eq
  constructor
  · rw [schedule_batch, schedule_clips_ids, hlen]
  · intro i hi
    have hi2 : i < (manifest.mergeSort clip_le).length := by omega
    refine ⟨batch_row now vid ps ((manifest.mergeSort clip_le).get ⟨i, hi2⟩)
      (db.next_id + i) (T0 + 3600 * H * (i : Int)), ?_, rfl, rfl⟩
    unfold schedule_batch find_post
    rw [schedule_clips_rows, List.find?_append]
    have hnone : db.rows.find? (fun r => r.id == db.next_id + i) = none := by
      rw [List.find?_eq_none]
      intro r hr
      have := hwf r hr
      simp only [beq_iff_eq]
      omega
    rw [hnone, Option.none_or]
    exact batch_rows_find? now vid ps H (manifest.mergeSort clip_le) i db.next_id T0 hi2

/-- Witness for C2: two clips scheduled from an empty store at T0 = 1000 with
a 2-hour interval land at 1000 and 8200 under ids 1 and 2. -/
theorem claim_c2_schedule_batch_witness :
    (∀ r ∈ SchedulerDB.empty.rows, r.id < SchedulerDB.empty.next_id) ∧
    (schedule_batch SchedulerDB.empty 0 "v" 1000 2 ["a"]
        [{ clip_index := 1 }, { clip_index := 2 }]).2 = List.range' 1 2 ∧
    (1 : Nat) < 2 ∧
    (∃ row, find_post (schedule_batch SchedulerDB.empty 0 "v" 1000 2 ["a"]
          [{ clip_index := 1 }, { clip_index := 2 }]).1 (1 + 1) = some row ∧
      row.scheduled_time = 1000 + 3600 * 2 * ((1 : Nat) : Int) ∧
      row.status = "pending") :=
  ⟨by decide,
   (claim_c2_schedule_batch SchedulerDB.empty 0 "v" 1000 2 ["a"]
      [{ clip_index := 1 }, { clip_index := 2 }] (by decide)).1,
   by decide,
   (claim_c2_schedule_batch SchedulerDB.empty 0 "v" 1000 2 ["a"]
      [{ clip_index := 1 }, { clip_index := 2 }] (by decide)).2 1 (by decide)⟩

/-- C6: a due job whose manifest read raises is marked failed with the raised
message, and one whose clip is absent from the manifest is marked failed with
the synthetic clip-not-found error — in both cases without invoking the
multi-platform uploader — and a non-dry-run processing pass always completes
with its posted and failed counters summing to the number of due jobs. -/
theorem claim_c6_isolation :
    (∀ (env : ProcessEnv) (db : SchedulerDB) (now : Int) (root : String)
        (post : ScheduledPost) (e : String),
      env.read_manifest (path_join [root, post.video_id, "manifest.json"]) =
        Except.error e →
      process_one_post env db now root post =
        { db := mark_failed db now post.id e
          posted := false
          uploader_invoked := false }) ∧
    (∀ (env : ProcessEnv) (db : SchedulerDB) (now : Int) (root : String)
        (post : ScheduledPost) (manifest : List Clip),
      env.read_manifest (path_join [root, post.video_id, "manifest.json"]) =
        Except.ok manifest →
      manifest.find? (fun c => c.clip_index == post.clip_index) = none →
      process_one_post env db now root post =
        { db := mark_failed db now post.id
            ("Clip " ++ toString post.clip_index ++ " not found in manifest")
          posted := false
          uploader_invoked := false }) ∧
    (∀ (env : ProcessEnv) (db : SchedulerDB) (now : Int) (root : String),
      (process_pending_posts env db now root false).2.posted +
        (process_pending_posts env db now root false).2.failed =
        (get_pending_posts db now).length) :=
  ⟨process_one_post_manifest_error, process_one_post_clip_missing,
   fun env db now root => process_posts_loop_counts env now root _ db⟩

/-- Witness for C6: a missing manifest fails the one due job without touching
the uploader, and the counters sum to the number of due jobs. -/
theorem claim_c6_isolation_witness :
    demo_env_noman.read_manifest
      (path_join ["clips_output", demo_post.video_id, "manifest.json"]) =
      Except.error "manifest missing" ∧
    process_one_post demo_env_noman demo_db 7 "clips_output" demo_post =
      { db := mark_failed demo_db 7 demo_post.id "manifest missing"
        posted := false
        uploader_invoked := false } ∧
    (process_pending_posts demo_env_noman demo_db 7 "clips_output" false).2.posted +
      (process_pending_posts demo_env_noman demo_db 7 "clips_output" false).2.failed =
      (get_pending_posts demo_db 7).length :=
  ⟨rfl,
   claim_c6_isolation.1 demo_env_noman demo_db 7 "clips_output" demo_post
     "manifest missing" rfl,
   claim_c6_isolation.2.2 demo_env_noman demo_db 7 "clips_output"⟩

/-- C3 refutation: the status updates are unconditional, so mark_failed on an
already posted job moves its status from posted to failed — a transition that
does not start from pending. -/
theorem claim_c3_counterexample :
    (find_post demo_c3_db1 1).map (fun r => r.status) = some "posted" ∧
    (find_post demo_c3_db2 1).map (fun r => r.status) = some "failed" := by
  exact ⟨by decide, by decide⟩

/-- C3 (amended): no store operation ever returns an existing job to pending —
under every sequence of schedule_post, mark_posted, mark_failed and
cancel_post, a job whose status is not pending keeps a non-pending status
(mark_posted and mark_failed may overwrite one terminal status with the
other); cancel_post deletes the row and returns true exactly when the job
exists with status pending; and a cancelled job is never returned by any
subsequent due-job query. -/
theorem claim_c3_amended :
    (∀ (db : SchedulerDB) (ops : List StoreOp) (pid : Nat),
      (∀ r ∈ db.rows, r.id = pid → r.status ≠ "pending") → pid < db.next_id →
      ∀ r ∈ (apply_ops db ops).rows, r.id = pid → r.status ≠ "pending") ∧
    (∀ (db : SchedulerDB) (pid : Nat),
      (cancel_post db pid).2 = true ↔
        ∃ r ∈ db.rows, r.id = pid ∧ r.status = "pending") ∧
    (∀ (db : SchedulerDB) (pid : Nat) (ops : List StoreOp) (t : Int),
      db.WF → (cancel_post db pid).2 = true →
      ∀ r ∈ get_pending_posts (apply_ops (cancel_post db pid).1 ops) t,
        r.id ≠ pid) := by
  refine ⟨fun db ops pid h1 h2 => apply_ops_no_pending pid ops db h1 h2,
    cancel_post_ret, ?_⟩
  intro db pid ops t hwf hc r hr
  obtain ⟨habs, hlt⟩ := cancel_absent db pid hwf hc
  have hmem := ((mem_get_pending_posts _ t r).mp hr).1
  exact apply_ops_absent pid ops _ habs hlt r hmem

/-- Witness for C3 (amended): the posted job of the counterexample database
stays non-pending under a further mark_failed, cancellation of the pending
demo job returns true, and no later due query returns the cancelled id. -/
theorem claim_c3_amended_witness :
    (∀ r ∈ demo_c3_db1.rows, r.id = 1 → r.status ≠ "pending") ∧
    1 < demo_c3_db1.next_id ∧
    (∀ r ∈ (apply_ops demo_c3_db1 [StoreOp.markFailed 300 1 "late failure"]).rows,
      r.id = 1 → r.status ≠ "pending") ∧
    ((cancel_post demo_db 1).2 = true ↔
      ∃ r ∈ demo_db.rows, r.id = 1 ∧ r.status = "pending") ∧
    demo_db.WF ∧ (cancel_post demo_db 1).2 = true ∧
    (∀ r ∈ get_pending_posts
        (apply_ops (cancel_post demo_db 1).1
          [StoreOp.schedule 0 "w" 2 ["a"] 0 none none none none]) 50,
      r.id ≠ 1) :=
  ⟨by decide, by decide,
   claim_c3_amended.1 demo_c3_db1 [StoreOp.markFailed 300 1 "late failure"] 1
     (by decide) (by decide),
   claim_c3_amended.2.1 demo_db 1,
   ⟨by decide, by decide⟩, by decide,
   claim_c3_amended.2.2 demo_db 1
     [StoreOp.schedule 0 "w" 2 ["a"] 0 none none none none] 50
     ⟨by decide, by decide⟩ (by decide)⟩

/-- C4 refutation: processing demo_post (destinations youtube and tiktok) with
every destination failing stores one joined error record in result, not one
outcome entry per destination attributed to that destination. -/
theorem claim_c4_counterexample :
    find_post (process_one_post demo_env_uninitialized demo_db 500 "clips_output"
        demo_post).db 1 = some demo_failed_row ∧
    demo_failed_row.result ≠ none ∧
    ¬ result_attributed_per_destination demo_failed_row := by
  refine ⟨by decide, by decide, ?_⟩
  intro h
  have hperm := h (JobResult.errorRecord demo_joined_error) rfl
  exact absurd hperm (by decide)

/-- C4 (amended): the dispatcher always returns exactly one result per
requested destination, so a job marked posted stores one outcome entry per
destination named in its destinations list (entries are labelled by the
reporting adapter — display name, requested name for an uninitialized
destination, or All for a missing file — not necessarily the destination
name); a job marked failed stores a single joined error record instead of
per-destination entries. -/
theorem claim_c4_amended
    (env : ProcessEnv) (db : SchedulerDB) (now : Int) (root : String)
    (post : ScheduledPost) (manifest : List Clip) (clip : Clip) (fn : String)
    (results : List UploadResult) (row : ScheduledPost)
    (hman : env.read_manifest (path_join [root, post.video_id, "manifest.json"]) =
      Except.ok manifest)
    (hclip : manifest.find? (fun c => c.clip_index == post.clip_index) = some clip)
    (hfn : clip.file_name = some fn)
    (hup : upload_multi (env.make_uploader (split_char (Char.ofNat 44) post.platforms))
        (split_char (Char.ofNat 44) post.platforms)
        (py_or post.video_url (path_join [root, post.video_id, "clips", fn]))
        (py_or post.title (clip.title.getD ""))
        (py_or post.description (clip.description.getD ""))
        none env.file_exists true = Except.ok results)
    (hrow : find_post db post.id = some row) :
    results.length = (split_char (Char.ofNat 44) post.platforms).length ∧
    (results.any (fun r => r.success) = true →
      ∃ row2, find_post (process_one_post env db now root post).db post.id =
          some row2 ∧
        row2.result = some (JobResult.entries results) ∧
        (job_result_entries (JobResult.entries results)).length =
          (split_char (Char.ofNat 44) post.platforms).length) ∧
    (results.any (fun r => r.success) = false →
      ∃ row2, find_post (process_one_post env db now root post).db post.id =
          some row2 ∧
        row2.result = some (JobResult.errorRecord (joined_errors results))) := by
  have hlen := upload_multi_ok_length _ _ _ _ _ _ _ _ _ hup
  have hd := process_one_post_dispatched env db now root post manifest clip fn results
    hman hclip hfn hup
  refine ⟨hlen, ?_, ?_⟩
  · intro hs
    have hemp : results.isEmpty = false := by
      cases results with
      | nil => simp at hs
      | cons a l => rfl
    rw [hd, if_pos hs]
    have hfind : find_post (mark_posted db now post.id results) post.id =
        some { row with status := "posted"
                        result := some (JobResult.entries results)
                        posted_at := some now } := by
      rw [find_post_mark_posted, hrow, hemp]
      rfl
    exact ⟨_, hfind, rfl, hlen⟩
  · intro hs
    rw [hd, if_neg (by rw [hs]; exact Bool.false_ne_true)]
    have hfind : find_post (mark_failed db now post.id (joined_errors results)) post.id =
        some { row with status := "failed"
                        result := some (JobResult.errorRecord (joined_errors results))
                        posted_at := some now } := by
      rw [find_post_mark_failed, hrow]
      rfl
    exact ⟨_, hfind, rfl⟩

/-- Witness for C4 (amended): both destinations of demo_post fail, the
dispatcher returns two results for two destinations, and the stored result is
the single joined error record. -/
theorem claim_c4_amended_witness :
    demo_env_uninitialized.read_manifest
      (path_join ["clips_output", demo_post.video_id, "manifest.json"]) =
      Except.ok [demo_clip] ∧
    ([demo_clip].find? (fun c => c.clip_index == demo_post.clip_index) =
      some demo_clip) ∧
    demo_clip.file_name = some "clip1.mp4" ∧
    find_post demo_db demo_post.id = some demo_post ∧
    demo_results_uninit.any (fun r => r.success) = false ∧
    demo_results_uninit.length =
      (split_char (Char.ofNat 44) demo_post.platforms).length ∧
    (∃ row2, find_post (process_one_post demo_env_uninitialized demo_db 500
          "clips_output" demo_post).db demo_post.id = some row2 ∧
      row2.result = some (JobResult.errorRecord (joined_errors demo_results_uninit))) := by
  refine ⟨rfl, by decide, rfl, by decide, by decide, ?_, ?_⟩
  · exact (claim_c4_amended demo_env_uninitialized demo_db 500 "clips_output"
      demo_post [demo_clip] demo_clip "clip1.mp4" demo_results_uninit demo_post
      rfl (by decide) rfl (by rfl) (by decide)).1
  · exact (claim_c4_amended demo_env_uninitialized demo_db 500 "clips_output"
      demo_post [demo_clip] demo_clip "clip1.mp4" demo_results_uninit demo_post
      rfl (by decide) rfl (by rfl) (by decide)).2.2 (by decide)

set_option maxRecDepth 8000 in
/-- C9 refutation: with authentication established and a valid media file, a
caption one character over the TikTok limit fails validate_metadata, yet
TikTok upload returns its stub failure rather than that metadata validation
failure — the adapter never validates the metadata, it only truncates it. -/
theorem claim_c9_counterexample :
    (validate_metadata tiktokConfig demo_long_title "" none).1 = false ∧
    tiktok_upload demo_tiktok_env true "clip.mp4" demo_long_title "" none =
      { success := false
        platform := "TikTok"
        error := some tiktok_not_implemented_error } ∧
    some tiktok_not_implemented_error ≠
      (validate_metadata tiktokConfig demo_long_title "" none).2 :=
  ⟨by decide, by decide, by decide⟩

/-- C9 (amended): each adapter upload first establishes authentication when
not already authenticated (returning a failed result when it cannot), then
validates the media before any network call and returns a media validation
failure as a failed result without dispatching; but metadata is not validated
against the limits before upload: TikTok truncates the caption and returns its
stub failure whatever the metadata, and YouTube validates metadata only after
truncating it to the limits. -/
theorem claim_c9_amended :
    (∀ (env : TikTokEnv) (p ti de : String) (tags : Option (List String)),
      env.auth_succeeds = false →
      tiktok_upload env false p ti de tags =
        { success := false
          platform := "TikTok"
          error := some "Authentication failed. TikTok requires approved developer access." }) ∧
    (∀ (env : TikTokEnv) (auth : Bool) (p ti de : String)
        (tags : Option (List String)) (e : Option String),
      validate_video tiktokConfig env.fs p = (false, e) →
      (auth = true ∨ env.auth_succeeds = true) →
      tiktok_upload env auth p ti de tags =
        { success := false, platform := "TikTok", error := e }) ∧
    (∀ (env : TikTokEnv) (auth : Bool) (p ti de : String)
        (tags : Option (List String)),
      (validate_video tiktokConfig env.fs p).1 = true →
      (auth = true ∨ env.auth_succeeds = true) →
      tiktok_upload env auth p ti de tags =
        { success := false
          platform := "TikTok"
          error := some tiktok_not_implemented_error }) ∧
    (∀ (env : YouTubeEnv) (p ti de : String) (tags : Option (List String)),
      env.auth_succeeds = false →
      youtube_upload env false p ti de tags =
        { success := false
          platform := "YouTube Shorts"
          error := some "Authentication failed" }) ∧
    (∀ (env : YouTubeEnv) (auth : Bool) (p ti de : String)
        (tags : Option (List String)) (e : Option String),
      validate_video youtubeConfig env.fs p = (false, e) →
      (auth = true ∨ env.auth_succeeds = true) →
      youtube_upload env auth p ti de tags =
        { success := false, platform := "YouTube Shorts", error := e }) := by
  refine ⟨?_, ?_, ?_, ?_, ?_⟩
  · intro env p ti de tags h
    unfold tiktok_upload
    rw [h]
    rfl
  · intro env auth p ti de tags e hv hauth
    have hcond : (!auth && !env.auth_succeeds) = false := by
      rcases hauth with h | h <;> simp [h]
    simp only [tiktok_upload, hcond, Bool.false_eq_true, if_false]
    rw [hv]
  · intro env auth p ti de tags hv1 hauth
    have hcond : (!auth && !env.auth_succeeds) = false := by
      rcases hauth with h | h <;> simp [h]
    rcases hvv : validate_video tiktokConfig env.fs p with ⟨b, eo⟩
    rw [hvv] at hv1
    simp only at hv1
    subst hv1
    simp only [tiktok_upload, hcond, Bool.false_eq_true, if_false]
    rw [hvv]
  · intro env p ti de tags h
    unfold youtube_upload
    rw [h]
    rfl
  · intro env auth p ti de tags e hv hauth
    have hcond : (!auth && !env.auth_succeeds) = false := by
      rcases hauth with h | h <;> simp [h]
    unfold youtube_upload
    rw [hcond, hv]
    rfl

/-- Witness for C9 (amended): a missing file is reported as a failed result by
both adapters, and with valid media the TikTok stub failure comes back even
though the adapter was not yet authenticated. -/
theorem claim_c9_amended_witness :
    validate_video tiktokConfig demo_tiktok_env.fs "nope.mp4" =
      (false, some ("Video file not found: " ++ "nope.mp4")) ∧
    (validate_video tiktokConfig demo_tiktok_env.fs "clip.mp4").1 = true ∧
    demo_tiktok_env.auth_succeeds = true ∧
    tiktok_upload demo_tiktok_env true "nope.mp4" "t" "d" none =
      { success := false
        platform := "TikTok"
        error := some ("Video file not found: " ++ "nope.mp4") } ∧
    tiktok_upload demo_tiktok_env false "clip.mp4" "t" "d" none =
      { success := false
        platform := "TikTok"
        error := some tiktok_not_implemented_error } :=
  ⟨by decide, by decide, rfl,
   claim_c9_amended.2.1 demo_tiktok_env true "nope.mp4" "t" "d" none _
     (by decide) (Or.inl rfl),
   claim_c9_amended.2.2.1 demo_tiktok_env false "clip.mp4" "t" "d" none
     (by decide) (Or.inr rfl)⟩

end ClipsMachine
